import Mathlib

/-!
Shallow embedding of the pinniped `upstreamwatchers` validation-and-caching
engine (file `upstream_watchers.go`, package `upstreamwatchers`), together
with proofs of the specification's claims about it.

Modelling conventions:
  * Go byte slices are modelled as `List Nat` (`Bytes`).
  * Go `map[string]V` is modelled as a function `String → Option V`;
    map indexing with the `, ok` form returns the zero value and `false`
    on a missing key, exactly as in Go.
  * Nullable pointers (`*Condition`, `*TLSSpec`) are modelled as `Option`.
  * The external collaborators (Kubernetes secret lister, base64 decoding,
    x509 certificate-pool parsing, the live LDAP dial/bind performed by
    `upstreamldap.Provider.TestConnection`, and the search-base
    auto-discovery `DetectAndSetSearchBase`) are modelled as explicit
    oracle parameters: the core under verification only branches on their
    results, never inspects their internals.
  * Mutation of the shared `*ProviderConfig` is modelled by explicit state
    passing: every function that mutates the config returns the updated
    config alongside its Go return values.
  * `DeepCopy` on condition values is the identity on our value types.
-/

namespace v1alpha1

/-- Status of a Kubernetes-style condition. In Go this is the string type
`ConditionStatus` with the three values "True", "False", "Unknown"; the
core only ever compares against `ConditionTrue`. -/
inductive ConditionStatus where
  | ConditionTrue
  | ConditionFalse
  | ConditionUnknown
deriving DecidableEq

/-- The fields of `v1alpha1.Condition` that the validation core reads or
writes. (`ObservedGeneration` and `LastTransitionTime` are set by the
status-writing caller, outside this core.) -/
structure Condition where
  type : String
  status : ConditionStatus
  reason : String
  message : String
deriving DecidableEq

/-- Go `DeepCopy` of a condition value: on our value model it is the identity. -/
def Condition.DeepCopy (c : Condition) : Condition := c

/-- The part of `v1alpha1.TLSSpec` used by the core. -/
structure TLSSpec where
  CertificateAuthorityData : String
deriving DecidableEq

end v1alpha1

/-- Model of Go `[]byte` contents. -/
abbrev Bytes := List Nat

namespace corev1

/-- Go `corev1.SecretTypeBasicAuth`. -/
def SecretTypeBasicAuth : String := "kubernetes.io/basic-auth"

/-- Go `corev1.BasicAuthUsernameKey`. -/
def BasicAuthUsernameKey : String := "username"

/-- Go `corev1.BasicAuthPasswordKey`. -/
def BasicAuthPasswordKey : String := "password"

/-- The fields of `corev1.Secret` read by the core. `Data` models the Go
map `map[string][]byte` under `string(...)` conversion: indexing a missing
key yields `""`, so we model it as a total function into `String`. -/
structure Secret where
  type : String
  ResourceVersion : String
  Data : String → String

end corev1

namespace upstreamldap

/-- Go: `type LDAPConnectionProtocol string`. -/
abbrev LDAPConnectionProtocol := String

/-- Go constant `upstreamldap.TLS`. -/
def TLS : LDAPConnectionProtocol := "TLS"

/-- Go constant `upstreamldap.StartTLS`. -/
def StartTLS : LDAPConnectionProtocol := "StartTLS"

/-- The fields of `upstreamldap.UserSearchConfig` threaded through the core. -/
structure UserSearchConfig where
  Base : String := ""
  Filter : String := ""
  UsernameAttribute : String := ""
  UIDAttribute : String := ""
deriving DecidableEq

/-- The fields of `upstreamldap.GroupSearchConfig` threaded through the core. -/
structure GroupSearchConfig where
  Base : String := ""
  Filter : String := ""
  GroupNameAttribute : String := ""
deriving DecidableEq

/-- The fields of `upstreamldap.ProviderConfig` that this core reads or
writes. (The opaque per-attribute parsing-override function tables are
never inspected by the core and are omitted from the model.) -/
structure ProviderConfig where
  Host : String := ""
  ConnectionProtocol : LDAPConnectionProtocol := ""
  CABundle : Option Bytes := none
  BindUsername : String := ""
  BindPassword : String := ""
  UserSearch : UserSearchConfig := {}
  GroupSearch : GroupSearchConfig := {}
deriving DecidableEq

/-- Go `upstreamldap.Provider`: a provider instance wraps a by-value copy of
the config it was constructed from. -/
structure Provider where
  c : ProviderConfig
deriving DecidableEq

/-- Go `upstreamldap.New(*config)`: construct a provider from a copy of the config. -/
def New (config : ProviderConfig) : Provider := ⟨config⟩

end upstreamldap

namespace upstreamwatchers

open v1alpha1 upstreamldap

def ReasonNotFound : String := "SecretNotFound"

def ReasonWrongType : String := "SecretWrongType"

def ReasonMissingKeys : String := "SecretMissingKeys"

def ReasonSuccess : String := "Success"

def ReasonInvalidTLSConfig : String := "InvalidTLSConfig"

def ErrNoCertificates : String := "no certificates found"

def LDAPBindAccountSecretType : String := corev1.SecretTypeBasicAuth

def typeBindSecretValid : String := "BindSecretValid"

def typeTLSConfigurationValid : String := "TLSConfigurationValid"

def typeLDAPConnectionValid : String := "LDAPConnectionValid"

def TypeSearchBaseFound : String := "SearchBaseFound"

def reasonLDAPConnectionError : String := "LDAPConnectionError"

def noTLSConfigurationMessage : String := "no TLS configuration provided"

def loadedTLSConfigurationMessage : String := "loaded TLS configuration"

def ReasonUsingConfigurationFromSpec : String := "UsingConfigurationFromSpec"

def ReasonErrorFetchingSearchBase : String := "ErrorFetchingSearchBase"

/-- Go `ValidatedSettings` is the struct which is cached per upstream name. -/
structure ValidatedSettings where
  IDPSpecGeneration : Int := 0
  BindSecretResourceVersion : String := ""
  LDAPConnectionProtocol : upstreamldap.LDAPConnectionProtocol := ""
  UserSearchBase : String := ""
  GroupSearchBase : String := ""
  ConnectionValidCondition : Option Condition := none
  SearchBaseFoundCondition : Option Condition := none
deriving DecidableEq

/-- The Go zero value `ValidatedSettings{}` returned by a cache miss. -/
def ValidatedSettings.zero : ValidatedSettings := {}

/-- The `ValidatedSettingsByName map[string]ValidatedSettings` inside
`ValidatedSettingsCache`, modelled as a function. -/
abbrev ValidatedSettingsCache := String → Option ValidatedSettings

/-- Go `NewValidatedSettingsCache()`: the empty map. -/
def NewValidatedSettingsCache : ValidatedSettingsCache := fun _ => none

/-- Go `(s *ValidatedSettingsCache) Get(upstreamName, resourceVersion, idpSpecGeneration)`:
returns the stored settings and `true` when an entry exists under the name
and both its bind-secret resource version and its IDP spec generation match;
otherwise returns the zero value and `false`. -/
def ValidatedSettingsCache.Get (s : ValidatedSettingsCache)
    (upstreamName resourceVersion : String) (idpSpecGeneration : Int) :
    ValidatedSettings × Bool :=
  match s upstreamName with
  | some validatedSettings =>
    if validatedSettings.BindSecretResourceVersion = resourceVersion ∧
        validatedSettings.IDPSpecGeneration = idpSpecGeneration then
      (validatedSettings, true)
    else
      (ValidatedSettings.zero, false)
  | none => (ValidatedSettings.zero, false)

/-- Go `(s *ValidatedSettingsCache) Set(upstreamName, settings)`: unconditional
map overwrite. -/
def ValidatedSettingsCache.Set (s : ValidatedSettingsCache)
    (upstreamName : String) (settings : ValidatedSettings) :
    ValidatedSettingsCache :=
  fun n => if n = upstreamName then some settings else s n

/-- The `UpstreamGenericLDAPIDP` interface together with its
`UpstreamGenericLDAPSpec`, flattened into the accessor results the core
reads. `detectAndSetSearchBase` is the capability method
`Spec().DetectAndSetSearchBase(ctx, config)`: it may mutate the config's
search bases (explicit state passing) and returns an optional condition.
The 90-second bounded contexts threaded to the collaborators carry no
information the pure model can observe and are omitted. -/
structure UpstreamGenericLDAPIDP where
  name : String
  nspace : String
  generation : Int
  bindSecretName : String
  tlsSpec : Option TLSSpec
  detectAndSetSearchBase : ProviderConfig → ProviderConfig × Option Condition

/-- Go `validTLSCondition(message)`. -/
def validTLSCondition (message : String) : Condition :=
  { type := typeTLSConfigurationValid
    status := ConditionStatus.ConditionTrue
    reason := ReasonSuccess
    message := message }

/-- Go `invalidTLSCondition(message)`. -/
def invalidTLSCondition (message : String) : Condition :=
  { type := typeTLSConfigurationValid
    status := ConditionStatus.ConditionFalse
    reason := ReasonInvalidTLSConfig
    message := message }

/-- Go `ValidateTLSConfig(tlsSpec, config)`. The two external library calls
are oracles: `decodeBase64` models `base64.StdEncoding.DecodeString`
(returning either an error message or the decoded bytes) and
`appendCertsFromPEM` models `x509.CertPool.AppendCertsFromPEM` (returning
whether any certificate was parsed). Returns the possibly-updated config
together with the Go return value. -/
def ValidateTLSConfig
    (decodeBase64 : String → Except String Bytes)
    (appendCertsFromPEM : Bytes → Bool)
    (tlsSpec : Option TLSSpec) (config : ProviderConfig) :
    ProviderConfig × Condition :=
  match tlsSpec with
  | none => (config, validTLSCondition noTLSConfigurationMessage)
  | some spec =>
    if spec.CertificateAuthorityData = "" then
      (config, validTLSCondition loadedTLSConfigurationMessage)
    else
      match decodeBase64 spec.CertificateAuthorityData with
      | Except.error e =>
        (config, invalidTLSCondition ("certificateAuthorityData is invalid: " ++ e))
      | Except.ok bundle =>
        if appendCertsFromPEM bundle = false then
          (config, invalidTLSCondition
            ("certificateAuthorityData is invalid: " ++ ErrNoCertificates))
        else
          ({ config with CABundle := some bundle },
           validTLSCondition loadedTLSConfigurationMessage)

/-- The success condition built at the end of `TestConnection`. -/
def connectSuccessCondition (config : ProviderConfig)
    (bindSecretName currentSecretVersion : String) : Condition :=
  { type := typeLDAPConnectionValid
    status := ConditionStatus.ConditionTrue
    reason := ReasonSuccess
    message := "successfully able to connect to \"" ++ config.Host ++
      "\" and bind as user \"" ++ config.BindUsername ++
      "\" [validated with Secret \"" ++ bindSecretName ++
      "\" at version \"" ++ currentSecretVersion ++ "\"]" }

/-- The failure condition built at the end of `TestConnection`; `e` is the
reported error text. -/
def connectFailedCondition (config : ProviderConfig) (e : String) : Condition :=
  { type := typeLDAPConnectionValid
    status := ConditionStatus.ConditionFalse
    reason := reasonLDAPConnectionError
    message := "could not successfully connect to \"" ++ config.Host ++
      "\" and bind as user \"" ++ config.BindUsername ++ "\": " ++ e }

/-- Go `TestConnection(ctx, bindSecretName, config, currentSecretVersion)`.
The oracle `testConn` models `upstreamldap.New(*config).TestConnection(ctx)`:
`none` means a successful dial+bind, `some e` a failure with error text `e`.
Control flow from the Go source: first try with protocol TLS; on failure
retry with StartTLS; if the retry succeeds the error is cleared and the
config keeps StartTLS; if the retry also fails the protocol is restored to
TLS and the original TLS error is reported. Returns the mutated config and
the condition. -/
def TestConnection
    (testConn : Provider → Option String)
    (bindSecretName : String) (config : ProviderConfig)
    (currentSecretVersion : String) :
    ProviderConfig × Condition :=
  let config := { config with ConnectionProtocol := upstreamldap.TLS }
  match testConn (upstreamldap.New config) with
  | none => (config, connectSuccessCondition config bindSecretName currentSecretVersion)
  | some tlsErr =>
    let config := { config with ConnectionProtocol := upstreamldap.StartTLS }
    match testConn (upstreamldap.New config) with
    | none =>
      -- Successfully fell back to StartTLS: the original error is cleared.
      (config, connectSuccessCondition config bindSecretName currentSecretVersion)
    | some _ =>
      -- Falling back to StartTLS also failed: put TLS back into the config
      -- and report the original TLS error.
      let config := { config with ConnectionProtocol := upstreamldap.TLS }
      (config, connectFailedCondition config tlsErr)

/-- The secret-lookup capability
`secretInformer.Lister().Secrets(namespace).Get(name)`, as an oracle:
arguments are (namespace, name); the error branch carries `err.Error()`. -/
abbrev SecretLookup := String → String → Except String corev1.Secret

/-- Go `ValidateSecret(secretInformer, secretName, secretNamespace, config)`.
Returns the possibly-updated config together with the Go return values
(condition, current secret resource version). Note that the bind
credentials are written into the config before the missing-keys check, so
a found, correctly-typed secret mutates the config even when incomplete. -/
def ValidateSecret
    (secretLookup : SecretLookup)
    (secretName secretNamespace : String) (config : ProviderConfig) :
    ProviderConfig × Condition × String :=
  match secretLookup secretNamespace secretName with
  | Except.error errText =>
    (config,
     { type := typeBindSecretValid
       status := ConditionStatus.ConditionFalse
       reason := ReasonNotFound
       message := errText },
     "")
  | Except.ok secret =>
    if secret.type ≠ corev1.SecretTypeBasicAuth then
      (config,
       { type := typeBindSecretValid
         status := ConditionStatus.ConditionFalse
         reason := ReasonWrongType
         message := "referenced Secret \"" ++ secretName ++
           "\" has wrong type \"" ++ secret.type ++ "\" (should be \"" ++
           corev1.SecretTypeBasicAuth ++ "\")" },
       secret.ResourceVersion)
    else
      let config := { config with
        BindUsername := secret.Data corev1.BasicAuthUsernameKey
        BindPassword := secret.Data corev1.BasicAuthPasswordKey }
      if config.BindUsername = "" ∨ config.BindPassword = "" then
        (config,
         { type := typeBindSecretValid
           status := ConditionStatus.ConditionFalse
           reason := ReasonMissingKeys
           message := "referenced Secret \"" ++ secretName ++
             "\" is missing required keys [\"username\" \"password\"]" },
         secret.ResourceVersion)
      else
        (config,
         { type := typeBindSecretValid
           status := ConditionStatus.ConditionTrue
           reason := ReasonSuccess
           message := "loaded bind secret" },
         secret.ResourceVersion)

/-- Go `gradatedCondition`: a condition plus whether it is fatal. -/
structure gradatedCondition where
  condition : Condition
  isFatal : Bool
deriving DecidableEq

/-- Go `GradatedConditions`: the ordered list of gradated conditions. -/
structure GradatedConditions where
  gradatedConditions : List gradatedCondition := []
deriving DecidableEq

/-- Go `(g *GradatedConditions) Append(condition, isFatal)`. -/
def GradatedConditions.Append (g : GradatedConditions)
    (condition : Condition) (isFatal : Bool) : GradatedConditions :=
  ⟨g.gradatedConditions ++ [⟨condition, isFatal⟩]⟩

/-- Go `validateAndSetLDAPServerConnectivityAndSearchBase(ctx, validatedSettingsCache,
upstream, config, currentSecretVersion)`, with the dial oracle passed
explicitly. Returns the (possibly updated) cache, the (possibly updated)
config, and the two Go results `(ldapConnectionValidCondition,
searchBaseFoundCondition)`. The connection condition is `Option` because
on the cache-reuse branch it is the deep copy of a stored nullable
pointer; on the probing branch it is always present. -/
def validateAndSetLDAPServerConnectivityAndSearchBase
    (testConn : Provider → Option String)
    (validatedSettingsCache : ValidatedSettingsCache)
    (upstream : UpstreamGenericLDAPIDP)
    (config : ProviderConfig)
    (currentSecretVersion : String) :
    ValidatedSettingsCache × ProviderConfig × Option Condition × Option Condition :=
  let r := validatedSettingsCache.Get upstream.name currentSecretVersion upstream.generation
  let validatedSettings := r.1
  let hasPreviousValidatedSettings := r.2
  if hasPreviousValidatedSettings = true ∧ validatedSettings.UserSearchBase ≠ "" ∧
      validatedSettings.GroupSearchBase ≠ "" then
    -- Found previously validated settings in the cache (which is also not
    -- missing search base fields), so use them.
    let config := { config with
      ConnectionProtocol := validatedSettings.LDAPConnectionProtocol
      UserSearch := { config.UserSearch with Base := validatedSettings.UserSearchBase }
      GroupSearch := { config.GroupSearch with Base := validatedSettings.GroupSearchBase } }
    (validatedSettingsCache, config,
     validatedSettings.ConnectionValidCondition.map Condition.DeepCopy,
     validatedSettings.SearchBaseFoundCondition.map Condition.DeepCopy)
  else
    -- Did not find previously validated settings in the cache, so probe the
    -- LDAP server.
    let pr := TestConnection testConn upstream.bindSecretName config currentSecretVersion
    let config := pr.1
    let ldapConnectionValidCondition := pr.2
    let dr := upstream.detectAndSetSearchBase config
    let config := dr.1
    let searchBaseFoundCondition := dr.2
    -- When there were no failures, write the newly validated settings to the
    -- cache. The search base condition may be nil (only used by Active
    -- Directory providers), but if it exists it must not be a failure.
    let cache :=
      if ldapConnectionValidCondition.status = ConditionStatus.ConditionTrue ∧
          (searchBaseFoundCondition = none ∨
            searchBaseFoundCondition.map Condition.status =
              some ConditionStatus.ConditionTrue) then
        validatedSettingsCache.Set upstream.name
          { IDPSpecGeneration := upstream.generation
            BindSecretResourceVersion := currentSecretVersion
            LDAPConnectionProtocol := config.ConnectionProtocol
            UserSearchBase := config.UserSearch.Base
            GroupSearchBase := config.GroupSearch.Base
            ConnectionValidCondition := some ldapConnectionValidCondition.DeepCopy
            SearchBaseFoundCondition := searchBaseFoundCondition.map Condition.DeepCopy }
      else
        validatedSettingsCache
    (cache, config, some ldapConnectionValidCondition, searchBaseFoundCondition)

/-- Go `ValidateGenericLDAP(ctx, upstream, secretInformer, validatedSettingsCache,
config)`, with the collaborator oracles passed explicitly. Returns the
(possibly updated) cache, the (possibly updated) config, and the Go return
value (the gradated conditions). On the cache-reuse branch the stored
connection condition pointer is appended as-is by the Go code; a `none`
there would be a nil pointer appended to the list (never produced by this
module's own cache writes), which we model by skipping the append. -/
def ValidateGenericLDAP
    (secretLookup : SecretLookup)
    (decodeBase64 : String → Except String Bytes)
    (appendCertsFromPEM : Bytes → Bool)
    (testConn : Provider → Option String)
    (upstream : UpstreamGenericLDAPIDP)
    (validatedSettingsCache : ValidatedSettingsCache)
    (config : ProviderConfig) :
    ValidatedSettingsCache × ProviderConfig × GradatedConditions :=
  let conditions : GradatedConditions := {}
  let sres := ValidateSecret secretLookup upstream.bindSecretName upstream.nspace config
  let config := sres.1
  let secretValidCondition := sres.2.1
  let currentSecretVersion := sres.2.2
  let conditions := conditions.Append secretValidCondition true
  let tres := ValidateTLSConfig decodeBase64 appendCertsFromPEM upstream.tlsSpec config
  let config := tres.1
  let tlsValidCondition := tres.2
  let conditions := conditions.Append tlsValidCondition true
  -- No point in trying to connect to the server if the config was already
  -- determined to be invalid.
  if secretValidCondition.status = ConditionStatus.ConditionTrue ∧
      tlsValidCondition.status = ConditionStatus.ConditionTrue then
    let vres := validateAndSetLDAPServerConnectivityAndSearchBase
      testConn validatedSettingsCache upstream config currentSecretVersion
    let cache := vres.1
    let config := vres.2.1
    let ldapConnectionValidCondition := vres.2.2.1
    let searchBaseFoundCondition := vres.2.2.2
    let conditions :=
      match ldapConnectionValidCondition with
      | some c => conditions.Append c false
      | none => conditions
    let conditions :=
      match searchBaseFoundCondition with
      | some c => conditions.Append c true
      | none => conditions
    (cache, config, conditions)
  else
    (validatedSettingsCache, config, conditions)

/-- The first loop of `EvaluateConditions`: early-return on the first
condition that is both not-true and fatal. -/
def anyFatalNotTrue : List gradatedCondition → Bool
  | [] => false
  | gc :: rest =>
    if gc.condition.status ≠ ConditionStatus.ConditionTrue ∧ gc.isFatal = true then
      true
    else
      anyFatalNotTrue rest

/-- The second loop of `EvaluateConditions`: early-return on the first
condition that is not-true and not fatal. -/
def anyNonFatalNotTrue : List gradatedCondition → Bool
  | [] => false
  | gc :: rest =>
    if gc.condition.status ≠ ConditionStatus.ConditionTrue ∧ gc.isFatal = false then
      true
    else
      anyNonFatalNotTrue rest

/-- Go `EvaluateConditions(conditions, config)`: the publication decision.
The Go return type is `(upstreamprovider.UpstreamLDAPIdentityProviderI,
bool)`; a nil interface is modelled as `none`. -/
def EvaluateConditions (conditions : GradatedConditions)
    (config : ProviderConfig) : Option Provider × Bool :=
  if anyFatalNotTrue conditions.gradatedConditions = true then
    -- Invalid provider, so do not load it into the cache.
    (none, true)
  else if anyNonFatalNotTrue conditions.gradatedConditions = true then
    -- Error but load it into the cache anyway, treating this condition
    -- failure more like a warning; try again hoping it will improve.
    (some (upstreamldap.New config), true)
  else
    -- Fully validated provider, so load it into the cache.
    (some (upstreamldap.New config), false)

/-- The first loop of `EvaluateConditions` reports `true` exactly when some
condition in the list is fatal and not true. -/
theorem anyFatalNotTrue_iff (l : List gradatedCondition) :
    anyFatalNotTrue l = true ↔
      ∃ gc ∈ l, gc.condition.status ≠ ConditionStatus.ConditionTrue ∧ gc.isFatal = true := by
  induction l with
  | nil => simp [anyFatalNotTrue]
  | cons gc rest ih =>
    by_cases h : gc.condition.status ≠ ConditionStatus.ConditionTrue ∧ gc.isFatal = true
    · simp only [anyFatalNotTrue, if_pos h, List.mem_cons, true_iff]
      exact ⟨gc, Or.inl rfl, h⟩
    · simp only [anyFatalNotTrue, if_neg h, ih, List.mem_cons]
      constructor
      · rintro ⟨x, hx, hp⟩
        exact ⟨x, Or.inr hx, hp⟩
      · rintro ⟨x, hor, hp⟩
        cases hor with
        | inl he => exact absurd (he ▸ hp) h
        | inr hm => exact ⟨x, hm, hp⟩

/-- The second loop of `EvaluateConditions` reports `true` exactly when some
condition in the list is non-fatal and not true. -/
theorem anyNonFatalNotTrue_iff (l : List gradatedCondition) :
    anyNonFatalNotTrue l = true ↔
      ∃ gc ∈ l, gc.condition.status ≠ ConditionStatus.ConditionTrue ∧ gc.isFatal = false := by
  induction l with
  | nil => simp [anyNonFatalNotTrue]
  | cons gc rest ih =>
    by_cases h : gc.condition.status ≠ ConditionStatus.ConditionTrue ∧ gc.isFatal = false
    · simp only [anyNonFatalNotTrue, if_pos h, List.mem_cons, true_iff]
      exact ⟨gc, Or.inl rfl, h⟩
    · simp only [anyNonFatalNotTrue, if_neg h, ih, List.mem_cons]
      constructor
      · rintro ⟨x, hx, hp⟩
        exact ⟨x, Or.inr hx, hp⟩
      · rintro ⟨x, hor, hp⟩
        cases hor with
        | inl he => exact absurd (he ▸ hp) h
        | inr hm => exact ⟨x, hm, hp⟩

/-- Claim C1: publication tiers of `EvaluateConditions`. (a) If any fatal
condition is not true, it returns no provider and requests a retry. (b) If
every fatal condition is true but some non-fatal condition is not true, it
returns a provider constructed from the config and requests a retry. (c) If
every condition is true, it returns a provider constructed from the config
and requests no retry. -/
theorem evaluateConditions_publication_tiers
    (conditions : GradatedConditions) (config : ProviderConfig) :
    ((∃ gc ∈ conditions.gradatedConditions,
        gc.isFatal = true ∧ gc.condition.status ≠ ConditionStatus.ConditionTrue) →
      EvaluateConditions conditions config = (none, true)) ∧
    ((∀ gc ∈ conditions.gradatedConditions,
        gc.isFatal = true → gc.condition.status = ConditionStatus.ConditionTrue) →
      (∃ gc ∈ conditions.gradatedConditions,
        gc.isFatal = false ∧ gc.condition.status ≠ ConditionStatus.ConditionTrue) →
      EvaluateConditions conditions config = (some (upstreamldap.New config), true)) ∧
    ((∀ gc ∈ conditions.gradatedConditions,
        gc.condition.status = ConditionStatus.ConditionTrue) →
      EvaluateConditions conditions config = (some (upstreamldap.New config), false)) := by
  refine ⟨?_, ?_, ?_⟩
  · rintro ⟨gc, hmem, hf, hs⟩
    have h1 : anyFatalNotTrue conditions.gradatedConditions = true :=
      (anyFatalNotTrue_iff _).mpr ⟨gc, hmem, hs, hf⟩
    simp [EvaluateConditions, h1]
  · rintro hall ⟨gc, hmem, hf, hs⟩
    have h1 : ¬anyFatalNotTrue conditions.gradatedConditions = true := by
      intro hc
      obtain ⟨x, hx, hxs, hxf⟩ := (anyFatalNotTrue_iff _).mp hc
      exact hxs (hall x hx hxf)
    have h2 : anyNonFatalNotTrue conditions.gradatedConditions = true :=
      (anyNonFatalNotTrue_iff _).mpr ⟨gc, hmem, hs, hf⟩
    simp [EvaluateConditions, h1, h2]
  · intro hall
    have h1 : ¬anyFatalNotTrue conditions.gradatedConditions = true := by
      intro hc
      obtain ⟨x, hx, hxs, _⟩ := (anyFatalNotTrue_iff _).mp hc
      exact hxs (hall x hx)
    have h2 : ¬anyNonFatalNotTrue conditions.gradatedConditions = true := by
      intro hc
      obtain ⟨x, hx, hxs, _⟩ := (anyNonFatalNotTrue_iff _).mp hc
      exact hxs (hall x hx)
    simp [EvaluateConditions, h1, h2]

/-- Witness for claim C1: the three tiers at concrete condition lists. -/
theorem evaluateConditions_publication_tiers_witness :
    EvaluateConditions
        ⟨[⟨⟨"BindSecretValid", ConditionStatus.ConditionFalse, "r", "m"⟩, true⟩]⟩ {} =
      (none, true) ∧
    EvaluateConditions
        ⟨[⟨⟨"LDAPConnectionValid", ConditionStatus.ConditionFalse, "r", "m"⟩, false⟩]⟩ {} =
      (some (upstreamldap.New {}), true) ∧
    EvaluateConditions
        ⟨[⟨⟨"BindSecretValid", ConditionStatus.ConditionTrue, "r", "m"⟩, true⟩]⟩ {} =
      (some (upstreamldap.New {}), false) := by
  refine ⟨(evaluateConditions_publication_tiers _ _).1 ?_,
    (evaluateConditions_publication_tiers _ _).2.1 ?_ ?_,
    (evaluateConditions_publication_tiers _ _).2.2 ?_⟩ <;> decide

/-- Claim C10: an empty gradated-condition list makes `EvaluateConditions`
publish clean: it returns a provider constructed from the config with the
retry flag `false`. -/
theorem evaluateConditions_empty_publishes_clean (config : ProviderConfig) :
    EvaluateConditions {} config = (some (upstreamldap.New config), false) := by
  simp [EvaluateConditions, anyFatalNotTrue, anyNonFatalNotTrue]

/-- Applying a sequence of `Set` operations in order. (A `Get` does not
change the cache, so an arbitrary `Set`/`Get` sequence acts on the cache
exactly through its subsequence of `Set`s.) -/
def applySets : List (String × ValidatedSettings) → ValidatedSettingsCache →
    ValidatedSettingsCache
  | [], c => c
  | op :: rest, c => applySets rest (c.Set op.1 op.2)

/-- The entry most recently stored under `name` by a sequence of `Set`
operations, if any. -/
def lastSet : List (String × ValidatedSettings) → String → Option ValidatedSettings
  | [], _ => none
  | op :: rest, name =>
    match lastSet rest name with
    | some vs => some vs
    | none => if op.1 = name then some op.2 else none

/-- Evaluation of `Get` when the underlying map holds an entry for the name. -/
theorem ValidatedSettingsCache.Get_eq_of_lookup_some (s : ValidatedSettingsCache)
    (n rv : String) (g : Int) (w : ValidatedSettings) (h : s n = some w) :
    s.Get n rv g =
      if w.BindSecretResourceVersion = rv ∧ w.IDPSpecGeneration = g then (w, true)
      else (ValidatedSettings.zero, false) := by
  unfold ValidatedSettingsCache.Get
  rw [h]

/-- Evaluation of `Get` when the underlying map holds no entry for the name. -/
theorem ValidatedSettingsCache.Get_eq_of_lookup_none (s : ValidatedSettingsCache)
    (n rv : String) (g : Int) (h : s n = none) :
    s.Get n rv g = (ValidatedSettings.zero, false) := by
  unfold ValidatedSettingsCache.Get
  rw [h]

/-- The cache after a sequence of `Set`s maps each name to its most recently
stored entry, defaulting to the initial cache. -/
theorem applySets_apply (ops : List (String × ValidatedSettings))
    (c : ValidatedSettingsCache) (name : String) :
    applySets ops c name =
      match lastSet ops name with
      | some vs => some vs
      | none => c name := by
  induction ops generalizing c with
  | nil => simp [applySets, lastSet]
  | cons op rest ih =>
    simp only [applySets, lastSet]
    rw [ih]
    cases h : lastSet rest name with
    | some vs => simp
    | none =>
      by_cases he : op.1 = name
      · simp [ValidatedSettingsCache.Set, he, if_pos he.symm]
      · simp [ValidatedSettingsCache.Set, he, if_neg (Ne.symm he)]

/-- Claim C3: cache exactness. Starting from the empty cache and any
sequence of `Set` operations, `Get(name, secretVersion, generation)`
returns `(settings, true)` exactly when the entry most recently stored
under `name` is `settings` and its `BindSecretResourceVersion` and
`IDPSpecGeneration` equal the given secret version and generation; when no
entry was stored under the name, or either field differs, `Get` returns
the zero `ValidatedSettings` and `false`. -/
theorem validatedSettingsCache_get_exact_triple_match
    (ops : List (String × ValidatedSettings))
    (name secretVersion : String) (generation : Int) :
    (∀ vs : ValidatedSettings,
      (applySets ops NewValidatedSettingsCache).Get name secretVersion generation =
          (vs, true) ↔
        (lastSet ops name = some vs ∧ vs.BindSecretResourceVersion = secretVersion ∧
          vs.IDPSpecGeneration = generation)) ∧
    ((∀ vs, lastSet ops name = some vs →
        vs.BindSecretResourceVersion ≠ secretVersion ∨ vs.IDPSpecGeneration ≠ generation) →
      (applySets ops NewValidatedSettingsCache).Get name secretVersion generation =
        (ValidatedSettings.zero, false)) := by
  have hc : applySets ops NewValidatedSettingsCache name = lastSet ops name := by
    rw [applySets_apply]
    cases lastSet ops name <;> simp [NewValidatedSettingsCache]
  constructor
  · intro vs
    cases h : lastSet ops name with
    | none =>
      rw [ValidatedSettingsCache.Get_eq_of_lookup_none _ _ _ _ (hc.trans h)]
      simp
    | some w =>
      rw [ValidatedSettingsCache.Get_eq_of_lookup_some _ _ _ _ _ (hc.trans h)]
      by_cases hw : w.BindSecretResourceVersion = secretVersion ∧
          w.IDPSpecGeneration = generation
      · rw [if_pos hw]
        constructor
        · intro heq
          have hwv : w = vs := congrArg Prod.fst heq
          exact ⟨hwv ▸ rfl, hwv ▸ hw.1, hwv ▸ hw.2⟩
        · rintro ⟨hsome, _, _⟩
          have hwv : w = vs := Option.some.inj hsome
          rw [hwv]
      · rw [if_neg hw]
        constructor
        · intro heq
          exact absurd (congrArg Prod.snd heq) (by simp)
        · rintro ⟨hsome, h1, h2⟩
          have hwv : w = vs := Option.some.inj hsome
          exact absurd ⟨hwv ▸ h1, hwv ▸ h2⟩ hw
  · intro hmiss
    cases h : lastSet ops name with
    | none => exact ValidatedSettingsCache.Get_eq_of_lookup_none _ _ _ _ (hc.trans h)
    | some w =>
      rw [ValidatedSettingsCache.Get_eq_of_lookup_some _ _ _ _ _ (hc.trans h)]
      rw [if_neg]
      rintro ⟨h1, h2⟩
      rcases hmiss w h with h3 | h3
      · exact h3 h1
      · exact h3 h2

/-- Witness for claim C3: after `Set("idp1", {generation 5, secret "v1"})`
the exact triple hits and a changed secret version misses. -/
theorem validatedSettingsCache_get_exact_triple_match_witness :
    (applySets [("idp1", { IDPSpecGeneration := 5, BindSecretResourceVersion := "v1" })]
        NewValidatedSettingsCache).Get "idp1" "v1" 5 =
      ({ IDPSpecGeneration := 5, BindSecretResourceVersion := "v1" }, true) ∧
    (applySets [("idp1", { IDPSpecGeneration := 5, BindSecretResourceVersion := "v1" })]
        NewValidatedSettingsCache).Get "idp1" "v2" 5 =
      (ValidatedSettings.zero, false) := by
  constructor
  · exact ((validatedSettingsCache_get_exact_triple_match _ _ _ _).1 _).mpr
      (by refine ⟨by decide, by decide, by decide⟩)
  · refine (validatedSettingsCache_get_exact_triple_match _ _ _ _).2 ?_
    intro vs h
    have hv : lastSet [("idp1",
        ({ IDPSpecGeneration := 5, BindSecretResourceVersion := "v1" } : ValidatedSettings))]
        "idp1" = some { IDPSpecGeneration := 5, BindSecretResourceVersion := "v1" } := by
      decide
    rw [hv] at h
    have hvs := Option.some.inj h
    rw [← hvs]
    left
    decide

/-- Claim C2: TLS→StartTLS fallback in `TestConnection`. If the TLS
attempt succeeds, the config's protocol is TLS and the condition is the
success condition (no StartTLS attempt is reflected in the result, which
is independent of the oracle's answers on any other provider). If the TLS
attempt fails and the StartTLS attempt succeeds, the config's protocol is
StartTLS and the condition is the success condition. If both fail, the
config's protocol is restored to TLS and the condition is false with a
message ending in the original TLS attempt's error text. -/
theorem testConnection_tls_starttls_fallback
    (testConn : Provider → Option String)
    (bindSecretName : String) (config : ProviderConfig)
    (currentSecretVersion : String) :
    (testConn (upstreamldap.New { config with ConnectionProtocol := upstreamldap.TLS }) =
        none →
      TestConnection testConn bindSecretName config currentSecretVersion =
        ({ config with ConnectionProtocol := upstreamldap.TLS },
         connectSuccessCondition { config with ConnectionProtocol := upstreamldap.TLS }
           bindSecretName currentSecretVersion)) ∧
    (∀ e,
      testConn (upstreamldap.New { config with ConnectionProtocol := upstreamldap.TLS }) =
          some e →
      testConn (upstreamldap.New { config with ConnectionProtocol := upstreamldap.StartTLS }) =
          none →
      TestConnection testConn bindSecretName config currentSecretVersion =
        ({ config with ConnectionProtocol := upstreamldap.StartTLS },
         connectSuccessCondition { config with ConnectionProtocol := upstreamldap.StartTLS }
           bindSecretName currentSecretVersion)) ∧
    (∀ e e2,
      testConn (upstreamldap.New { config with ConnectionProtocol := upstreamldap.TLS }) =
          some e →
      testConn (upstreamldap.New { config with ConnectionProtocol := upstreamldap.StartTLS }) =
          some e2 →
      TestConnection testConn bindSecretName config currentSecretVersion =
        ({ config with ConnectionProtocol := upstreamldap.TLS },
         connectFailedCondition { config with ConnectionProtocol := upstreamldap.TLS } e) ∧
      (TestConnection testConn bindSecretName config currentSecretVersion).2.status =
        ConditionStatus.ConditionFalse ∧
      ∃ p, (TestConnection testConn bindSecretName config currentSecretVersion).2.message =
        p ++ e) := by
  have hcc : ({ { config with ConnectionProtocol := upstreamldap.TLS } with
      ConnectionProtocol := upstreamldap.StartTLS } : ProviderConfig) =
      { config with ConnectionProtocol := upstreamldap.StartTLS } := rfl
  have hct : ({ { config with ConnectionProtocol := upstreamldap.StartTLS } with
      ConnectionProtocol := upstreamldap.TLS } : ProviderConfig) =
      { config with ConnectionProtocol := upstreamldap.TLS } := rfl
  refine ⟨?_, ?_, ?_⟩
  · intro h1
    simp only [TestConnection, h1]
  · intro e h1 h2
    simp only [TestConnection, h1, h2]
  · intro e e2 h1 h2
    have hres : TestConnection testConn bindSecretName config currentSecretVersion =
        ({ config with ConnectionProtocol := upstreamldap.TLS },
         connectFailedCondition { config with ConnectionProtocol := upstreamldap.TLS } e) := by
      simp only [TestConnection, h1, h2]
    refine ⟨hres, ?_, ?_⟩
    · rw [hres]
      rfl
    · rw [hres]
      exact ⟨"could not successfully connect to \"" ++ config.Host ++
        "\" and bind as user \"" ++ config.BindUsername ++ "\": ", rfl⟩

/-- Witness for claim C2: the three branches at concrete oracles. -/
theorem testConnection_tls_starttls_fallback_witness :
    TestConnection (fun _ => none) "sec" ({} : ProviderConfig) "v1" =
      ({ ({} : ProviderConfig) with ConnectionProtocol := upstreamldap.TLS },
       connectSuccessCondition
         { ({} : ProviderConfig) with ConnectionProtocol := upstreamldap.TLS } "sec" "v1") ∧
    TestConnection
        (fun p => if p.c.ConnectionProtocol = upstreamldap.StartTLS then none
          else some "tls dial failed")
        "sec" ({} : ProviderConfig) "v1" =
      ({ ({} : ProviderConfig) with ConnectionProtocol := upstreamldap.StartTLS },
       connectSuccessCondition
         { ({} : ProviderConfig) with ConnectionProtocol := upstreamldap.StartTLS }
         "sec" "v1") ∧
    TestConnection (fun _ => some "dial failed") "sec" ({} : ProviderConfig) "v1" =
      ({ ({} : ProviderConfig) with ConnectionProtocol := upstreamldap.TLS },
       connectFailedCondition
         { ({} : ProviderConfig) with ConnectionProtocol := upstreamldap.TLS }
         "dial failed") := by
  refine ⟨(testConnection_tls_starttls_fallback _ _ _ _).1 (by decide),
    (testConnection_tls_starttls_fallback _ _ _ _).2.1 "tls dial failed"
      (by decide) (by decide),
    ((testConnection_tls_starttls_fallback _ _ _ _).2.2 "dial failed" "dial failed"
      (by decide) (by decide)).1⟩

/-- Claim C9: the five branches of `ValidateTLSConfig`. A nil TLS spec and
a non-nil spec with empty CA data both yield a true condition (with the
respective messages) and leave the config, hence its CA bundle, untouched;
a base64 decode failure and a bundle with no parseable certificates yield
false/InvalidTLSConfig conditions whose messages carry the decode error
text resp. "no certificates found"; otherwise the decoded bytes are stored
in `CABundle` and a true "loaded TLS configuration" condition returned. -/
theorem validateTLSConfig_edge_cases
    (decodeBase64 : String → Except String Bytes)
    (appendCertsFromPEM : Bytes → Bool) (config : ProviderConfig) :
    (ValidateTLSConfig decodeBase64 appendCertsFromPEM none config =
      (config,
       { type := typeTLSConfigurationValid, status := ConditionStatus.ConditionTrue,
         reason := ReasonSuccess, message := "no TLS configuration provided" })) ∧
    (∀ spec : TLSSpec, spec.CertificateAuthorityData = "" →
      ValidateTLSConfig decodeBase64 appendCertsFromPEM (some spec) config =
        (config,
         { type := typeTLSConfigurationValid, status := ConditionStatus.ConditionTrue,
           reason := ReasonSuccess, message := "loaded TLS configuration" })) ∧
    (∀ (spec : TLSSpec) (e : String), spec.CertificateAuthorityData ≠ "" →
      decodeBase64 spec.CertificateAuthorityData = Except.error e →
      ValidateTLSConfig decodeBase64 appendCertsFromPEM (some spec) config =
        (config,
         { type := typeTLSConfigurationValid, status := ConditionStatus.ConditionFalse,
           reason := ReasonInvalidTLSConfig,
           message := "certificateAuthorityData is invalid: " ++ e })) ∧
    (∀ (spec : TLSSpec) (bundle : Bytes), spec.CertificateAuthorityData ≠ "" →
      decodeBase64 spec.CertificateAuthorityData = Except.ok bundle →
      appendCertsFromPEM bundle = false →
      ValidateTLSConfig decodeBase64 appendCertsFromPEM (some spec) config =
        (config,
         { type := typeTLSConfigurationValid, status := ConditionStatus.ConditionFalse,
           reason := ReasonInvalidTLSConfig,
           message := "certificateAuthorityData is invalid: no certificates found" })) ∧
    (∀ (spec : TLSSpec) (bundle : Bytes), spec.CertificateAuthorityData ≠ "" →
      decodeBase64 spec.CertificateAuthorityData = Except.ok bundle →
      appendCertsFromPEM bundle = true →
      ValidateTLSConfig decodeBase64 appendCertsFromPEM (some spec) config =
        ({ config with CABundle := some bundle },
         { type := typeTLSConfigurationValid, status := ConditionStatus.ConditionTrue,
           reason := ReasonSuccess, message := "loaded TLS configuration" })) := by
  refine ⟨rfl, ?_, ?_, ?_, ?_⟩
  · intro spec hca
    simp only [ValidateTLSConfig, if_pos hca]
    rfl
  · intro spec e hca hdec
    simp only [ValidateTLSConfig, if_neg hca, hdec]
    rfl
  · intro spec bundle hca hdec happ
    simp only [ValidateTLSConfig, if_neg hca, hdec, happ, if_pos]
    rfl
  · intro spec bundle hca hdec happ
    simp only [ValidateTLSConfig, if_neg hca, hdec, happ]
    simp only [Bool.true_eq_false, if_neg, if_false]
    rfl

/-- Witness for claim C9: all five branches at concrete oracles. -/
theorem validateTLSConfig_edge_cases_witness :
    (ValidateTLSConfig (fun _ => Except.error "illegal base64 data")
        (fun _ => false) none ({} : ProviderConfig) =
      (({} : ProviderConfig),
       { type := typeTLSConfigurationValid, status := ConditionStatus.ConditionTrue,
         reason := ReasonSuccess, message := "no TLS configuration provided" })) ∧
    (ValidateTLSConfig (fun _ => Except.error "illegal base64 data")
        (fun _ => false) (some ⟨""⟩) ({} : ProviderConfig) =
      (({} : ProviderConfig),
       { type := typeTLSConfigurationValid, status := ConditionStatus.ConditionTrue,
         reason := ReasonSuccess, message := "loaded TLS configuration" })) ∧
    (ValidateTLSConfig (fun _ => Except.error "illegal base64 data")
        (fun _ => false) (some ⟨"%%%"⟩) ({} : ProviderConfig) =
      (({} : ProviderConfig),
       { type := typeTLSConfigurationValid, status := ConditionStatus.ConditionFalse,
         reason := ReasonInvalidTLSConfig,
         message := "certificateAuthorityData is invalid: illegal base64 data" })) ∧
    (ValidateTLSConfig (fun _ => Except.ok [104, 105]) (fun _ => false)
        (some ⟨"aGk="⟩) ({} : ProviderConfig) =
      (({} : ProviderConfig),
       { type := typeTLSConfigurationValid, status := ConditionStatus.ConditionFalse,
         reason := ReasonInvalidTLSConfig,
         message := "certificateAuthorityData is invalid: no certificates found" })) ∧
    (ValidateTLSConfig (fun _ => Except.ok [104, 105]) (fun _ => true)
        (some ⟨"aGk="⟩) ({} : ProviderConfig) =
      ({ ({} : ProviderConfig) with CABundle := some [104, 105] },
       { type := typeTLSConfigurationValid, status := ConditionStatus.ConditionTrue,
         reason := ReasonSuccess, message := "loaded TLS configuration" })) := by
  refine ⟨(validateTLSConfig_edge_cases _ _ _).1,
    (validateTLSConfig_edge_cases _ _ _).2.1 _ rfl,
    (validateTLSConfig_edge_cases _ _ _).2.2.1 _ _ (by decide) rfl,
    (validateTLSConfig_edge_cases _ _ _).2.2.2.1 _ _ (by decide) rfl rfl,
    (validateTLSConfig_edge_cases _ _ _).2.2.2.2 _ _ (by decide) rfl rfl⟩

/-- Counterexample for claim C7: a "truly unexpected" failure from the
secret-lookup collaborator does not propagate as a plain error; at this
concrete input `ValidateSecret` converts it into a `BindSecretValid`
condition (status false, reason `SecretNotFound`, message the lookup
error's text) and returns normally with an empty resource version — the
function's results are only the config, the condition and the version
string, so no error return exists. -/
theorem validateSecret_unexpected_lookup_failure_counterexample :
    ValidateSecret
        (fun _ _ => Except.error "unexpected infrastructure failure: connection refused")
        "my-secret" "my-ns" ({} : ProviderConfig) =
      (({} : ProviderConfig),
       { type := typeBindSecretValid, status := ConditionStatus.ConditionFalse,
         reason := ReasonNotFound,
         message := "unexpected infrastructure failure: connection refused" },
       "") := by
  rfl

/-- Claim C7 (amended): every failure of the core's operations is surfaced
as a condition value rather than an error, with no exception: any failure
from the secret-lookup collaborator, unexpected or not, is converted by
`ValidateSecret` into a `BindSecretValid` condition with status false,
reason `SecretNotFound` and the error's text as message, returned together
with an empty resource version and an unchanged config. -/
theorem validateSecret_lookup_failure_yields_condition
    (secretLookup : SecretLookup) (secretName secretNamespace : String)
    (config : ProviderConfig) (errText : String)
    (h : secretLookup secretNamespace secretName = Except.error errText) :
    ValidateSecret secretLookup secretName secretNamespace config =
      (config,
       { type := typeBindSecretValid, status := ConditionStatus.ConditionFalse,
         reason := ReasonNotFound, message := errText },
       "") := by
  unfold ValidateSecret
  rw [h]

/-- Witness for the amended claim C7. -/
theorem validateSecret_lookup_failure_yields_condition_witness :
    ValidateSecret (fun _ _ => Except.error "secret \"s\" not found")
        "s" "ns" ({} : ProviderConfig) =
      (({} : ProviderConfig),
       { type := typeBindSecretValid, status := ConditionStatus.ConditionFalse,
         reason := ReasonNotFound, message := "secret \"s\" not found" },
       "") :=
  validateSecret_lookup_failure_yields_condition _ "s" "ns" {} _ rfl

/-- Mapping `DeepCopy` over an optional condition is the identity. -/
theorem map_deepCopy (o : Option Condition) : o.map Condition.DeepCopy = o := by
  cases o <;> rfl

/-- A `Get` whose found-flag is `true` exposes the stored entry and its
matching fields. -/
theorem ValidatedSettingsCache.Get_eq_some_true (s : ValidatedSettingsCache)
    (n rv : String) (g : Int) (vs : ValidatedSettings)
    (h : s.Get n rv g = (vs, true)) :
    s n = some vs ∧ vs.BindSecretResourceVersion = rv ∧ vs.IDPSpecGeneration = g := by
  cases hl : s n with
  | none =>
    rw [ValidatedSettingsCache.Get_eq_of_lookup_none _ _ _ _ hl] at h
    exact absurd (congrArg Prod.snd h) Bool.false_ne_true
  | some w =>
    rw [ValidatedSettingsCache.Get_eq_of_lookup_some _ _ _ _ _ hl] at h
    by_cases hw : w.BindSecretResourceVersion = rv ∧ w.IDPSpecGeneration = g
    · rw [if_pos hw] at h
      have hwv : w = vs := congrArg Prod.fst h
      subst hwv
      exact ⟨rfl, hw.1, hw.2⟩
    · rw [if_neg hw] at h
      exact absurd (congrArg Prod.snd h) Bool.false_ne_true

/-- Claim C4: the cache-aware connectivity step. When the cache lookup
hits and both cached search bases are non-empty, the cached protocol and
search bases are copied into the config and (deep copies of) the two
cached conditions are returned, the cache is unchanged, and the result
does not depend on the dial or search-base oracles (no probe, no
resolution). In every other case the connection probe runs on the config
and then the search-base resolver runs on the post-probe config — with no
hypothesis on whether the probe succeeded — and their outputs form the
returned config and conditions. -/
theorem cacheAware_connectivity_hit_reuses_miss_probes
    (testConn : Provider → Option String)
    (cache : ValidatedSettingsCache)
    (upstream : UpstreamGenericLDAPIDP)
    (config : ProviderConfig)
    (currentSecretVersion : String) :
    (((cache.Get upstream.name currentSecretVersion upstream.generation).2 = true ∧
      (cache.Get upstream.name currentSecretVersion upstream.generation).1.UserSearchBase ≠ "" ∧
      (cache.Get upstream.name currentSecretVersion upstream.generation).1.GroupSearchBase ≠ "") →
      validateAndSetLDAPServerConnectivityAndSearchBase testConn cache upstream config
          currentSecretVersion =
        (cache,
         { config with
             ConnectionProtocol :=
               (cache.Get upstream.name currentSecretVersion upstream.generation).1.LDAPConnectionProtocol
             UserSearch := { config.UserSearch with
               Base := (cache.Get upstream.name currentSecretVersion upstream.generation).1.UserSearchBase }
             GroupSearch := { config.GroupSearch with
               Base := (cache.Get upstream.name currentSecretVersion upstream.generation).1.GroupSearchBase } },
         (cache.Get upstream.name currentSecretVersion upstream.generation).1.ConnectionValidCondition,
         (cache.Get upstream.name currentSecretVersion upstream.generation).1.SearchBaseFoundCondition)) ∧
    (¬ ((cache.Get upstream.name currentSecretVersion upstream.generation).2 = true ∧
      (cache.Get upstream.name currentSecretVersion upstream.generation).1.UserSearchBase ≠ "" ∧
      (cache.Get upstream.name currentSecretVersion upstream.generation).1.GroupSearchBase ≠ "") →
      (validateAndSetLDAPServerConnectivityAndSearchBase testConn cache upstream config
          currentSecretVersion).2 =
        ((upstream.detectAndSetSearchBase
            (TestConnection testConn upstream.bindSecretName config currentSecretVersion).1).1,
         some (TestConnection testConn upstream.bindSecretName config currentSecretVersion).2,
         (upstream.detectAndSetSearchBase
            (TestConnection testConn upstream.bindSecretName config currentSecretVersion).1).2)) := by
  constructor
  · intro h
    simp only [validateAndSetLDAPServerConnectivityAndSearchBase]
    rw [if_pos h, map_deepCopy, map_deepCopy]
  · intro h
    simp only [validateAndSetLDAPServerConnectivityAndSearchBase]
    rw [if_neg h]

/-- Witness for claim C4: the reuse branch on a populated cache and the
probing branch when the same lookup misses on a different secret version. -/
theorem cacheAware_connectivity_hit_reuses_miss_probes_witness :
    validateAndSetLDAPServerConnectivityAndSearchBase (fun _ => some "dial failed")
        (NewValidatedSettingsCache.Set "u"
          { IDPSpecGeneration := 3, BindSecretResourceVersion := "v1",
            LDAPConnectionProtocol := "StartTLS", UserSearchBase := "ou=users",
            GroupSearchBase := "ou=groups",
            ConnectionValidCondition := some
              { type := "LDAPConnectionValid", status := ConditionStatus.ConditionTrue,
                reason := "Success", message := "ok" },
            SearchBaseFoundCondition := none })
        ⟨"u", "ns", 3, "sec", none, fun cfg => (cfg, none)⟩ {} "v1" =
      (NewValidatedSettingsCache.Set "u"
        { IDPSpecGeneration := 3, BindSecretResourceVersion := "v1",
          LDAPConnectionProtocol := "StartTLS", UserSearchBase := "ou=users",
          GroupSearchBase := "ou=groups",
          ConnectionValidCondition := some
            { type := "LDAPConnectionValid", status := ConditionStatus.ConditionTrue,
              reason := "Success", message := "ok" },
          SearchBaseFoundCondition := none },
       { ({} : ProviderConfig) with
           ConnectionProtocol := "StartTLS"
           UserSearch := { ({} : UserSearchConfig) with Base := "ou=users" }
           GroupSearch := { ({} : GroupSearchConfig) with Base := "ou=groups" } },
       some { type := "LDAPConnectionValid", status := ConditionStatus.ConditionTrue,
              reason := "Success", message := "ok" },
       none) ∧
    (validateAndSetLDAPServerConnectivityAndSearchBase (fun _ => some "dial failed")
        (NewValidatedSettingsCache.Set "u"
          { IDPSpecGeneration := 3, BindSecretResourceVersion := "v1",
            LDAPConnectionProtocol := "StartTLS", UserSearchBase := "ou=users",
            GroupSearchBase := "ou=groups",
            ConnectionValidCondition := some
              { type := "LDAPConnectionValid", status := ConditionStatus.ConditionTrue,
                reason := "Success", message := "ok" },
            SearchBaseFoundCondition := none })
        ⟨"u", "ns", 3, "sec", none, fun cfg => (cfg, none)⟩ {} "v2").2 =
      ((UpstreamGenericLDAPIDP.detectAndSetSearchBase
          ⟨"u", "ns", 3, "sec", none, fun cfg => (cfg, none)⟩
          (TestConnection (fun _ => some "dial failed") "sec" {} "v2").1).1,
       some (TestConnection (fun _ => some "dial failed") "sec" {} "v2").2,
       (UpstreamGenericLDAPIDP.detectAndSetSearchBase
          ⟨"u", "ns", 3, "sec", none, fun cfg => (cfg, none)⟩
          (TestConnection (fun _ => some "dial failed") "sec" {} "v2").1).2) := by
  constructor
  · have := (cacheAware_connectivity_hit_reuses_miss_probes (fun _ => some "dial failed")
      (NewValidatedSettingsCache.Set "u"
        { IDPSpecGeneration := 3, BindSecretResourceVersion := "v1",
          LDAPConnectionProtocol := "StartTLS", UserSearchBase := "ou=users",
          GroupSearchBase := "ou=groups",
          ConnectionValidCondition := some
            { type := "LDAPConnectionValid", status := ConditionStatus.ConditionTrue,
              reason := "Success", message := "ok" },
          SearchBaseFoundCondition := none })
      ⟨"u", "ns", 3, "sec", none, fun cfg => (cfg, none)⟩ {} "v1").1
      (by refine ⟨by decide, by decide, by decide⟩)
    exact this.trans (by rfl)
  · exact (cacheAware_connectivity_hit_reuses_miss_probes (fun _ => some "dial failed")
      (NewValidatedSettingsCache.Set "u"
        { IDPSpecGeneration := 3, BindSecretResourceVersion := "v1",
          LDAPConnectionProtocol := "StartTLS", UserSearchBase := "ou=users",
          GroupSearchBase := "ou=groups",
          ConnectionValidCondition := some
            { type := "LDAPConnectionValid", status := ConditionStatus.ConditionTrue,
              reason := "Success", message := "ok" },
          SearchBaseFoundCondition := none })
      ⟨"u", "ns", 3, "sec", none, fun cfg => (cfg, none)⟩ {} "v2").2
      (by decide)

/-- Claim C5: on the probing path of the cache-aware connectivity step, a
new `ValidatedSettings` entry (upstream name, generation, secret version,
final protocol, final search bases, copies of both conditions) is written
to the cache exactly when the connection condition is true and the
search-base condition is nil or true; on any other outcome the returned
cache is the input cache, unchanged. -/
theorem cacheAware_probe_writes_cache_iff_success
    (testConn : Provider → Option String)
    (cache : ValidatedSettingsCache)
    (upstream : UpstreamGenericLDAPIDP)
    (config : ProviderConfig)
    (currentSecretVersion : String)
    (hmiss : ¬ ((cache.Get upstream.name currentSecretVersion upstream.generation).2 = true ∧
      (cache.Get upstream.name currentSecretVersion upstream.generation).1.UserSearchBase ≠ "" ∧
      (cache.Get upstream.name currentSecretVersion upstream.generation).1.GroupSearchBase ≠ "")) :
    (((TestConnection testConn upstream.bindSecretName config currentSecretVersion).2.status =
        ConditionStatus.ConditionTrue ∧
      ((upstream.detectAndSetSearchBase
          (TestConnection testConn upstream.bindSecretName config currentSecretVersion).1).2 =
            none ∨
        (upstream.detectAndSetSearchBase
          (TestConnection testConn upstream.bindSecretName config currentSecretVersion).1).2.map
            Condition.status = some ConditionStatus.ConditionTrue)) →
      (validateAndSetLDAPServerConnectivityAndSearchBase testConn cache upstream config
          currentSecretVersion).1 =
        cache.Set upstream.name
          { IDPSpecGeneration := upstream.generation
            BindSecretResourceVersion := currentSecretVersion
            LDAPConnectionProtocol :=
              (upstream.detectAndSetSearchBase
                (TestConnection testConn upstream.bindSecretName config
                  currentSecretVersion).1).1.ConnectionProtocol
            UserSearchBase :=
              (upstream.detectAndSetSearchBase
                (TestConnection testConn upstream.bindSecretName config
                  currentSecretVersion).1).1.UserSearch.Base
            GroupSearchBase :=
              (upstream.detectAndSetSearchBase
                (TestConnection testConn upstream.bindSecretName config
                  currentSecretVersion).1).1.GroupSearch.Base
            ConnectionValidCondition :=
              some (TestConnection testConn upstream.bindSecretName config
                currentSecretVersion).2
            SearchBaseFoundCondition :=
              (upstream.detectAndSetSearchBase
                (TestConnection testConn upstream.bindSecretName config
                  currentSecretVersion).1).2 }) ∧
    (¬ ((TestConnection testConn upstream.bindSecretName config currentSecretVersion).2.status =
        ConditionStatus.ConditionTrue ∧
      ((upstream.detectAndSetSearchBase
          (TestConnection testConn upstream.bindSecretName config currentSecretVersion).1).2 =
            none ∨
        (upstream.detectAndSetSearchBase
          (TestConnection testConn upstream.bindSecretName config currentSecretVersion).1).2.map
            Condition.status = some ConditionStatus.ConditionTrue)) →
      (validateAndSetLDAPServerConnectivityAndSearchBase testConn cache upstream config
          currentSecretVersion).1 = cache) := by
  constructor
  · intro h
    simp only [validateAndSetLDAPServerConnectivityAndSearchBase]
    rw [if_neg hmiss]
    show (if _ ∧ _ then _ else _) = _
    rw [if_pos h, map_deepCopy]
    rfl
  · intro h
    simp only [validateAndSetLDAPServerConnectivityAndSearchBase]
    rw [if_neg hmiss]
    show (if _ ∧ _ then _ else _) = _
    rw [if_neg h]

/-- Witness for claim C5: on an empty cache (a miss), a successful probe
with no search-base condition writes the entry, and a failed probe leaves
the cache unchanged. -/
theorem cacheAware_probe_writes_cache_iff_success_witness :
    (validateAndSetLDAPServerConnectivityAndSearchBase (fun _ => none)
        NewValidatedSettingsCache
        ⟨"u", "ns", 3, "sec", none, fun cfg => (cfg, none)⟩ {} "v1").1 =
      NewValidatedSettingsCache.Set "u"
        { IDPSpecGeneration := 3
          BindSecretResourceVersion := "v1"
          LDAPConnectionProtocol :=
            (UpstreamGenericLDAPIDP.detectAndSetSearchBase
              ⟨"u", "ns", 3, "sec", none, fun cfg => (cfg, none)⟩
              (TestConnection (fun _ => none) "sec" {} "v1").1).1.ConnectionProtocol
          UserSearchBase :=
            (UpstreamGenericLDAPIDP.detectAndSetSearchBase
              ⟨"u", "ns", 3, "sec", none, fun cfg => (cfg, none)⟩
              (TestConnection (fun _ => none) "sec" {} "v1").1).1.UserSearch.Base
          GroupSearchBase :=
            (UpstreamGenericLDAPIDP.detectAndSetSearchBase
              ⟨"u", "ns", 3, "sec", none, fun cfg => (cfg, none)⟩
              (TestConnection (fun _ => none) "sec" {} "v1").1).1.GroupSearch.Base
          ConnectionValidCondition :=
            some (TestConnection (fun _ => none) "sec" {} "v1").2
          SearchBaseFoundCondition :=
            (UpstreamGenericLDAPIDP.detectAndSetSearchBase
              ⟨"u", "ns", 3, "sec", none, fun cfg => (cfg, none)⟩
              (TestConnection (fun _ => none) "sec" {} "v1").1).2 } ∧
    (validateAndSetLDAPServerConnectivityAndSearchBase (fun _ => some "dial failed")
        NewValidatedSettingsCache
        ⟨"u", "ns", 3, "sec", none, fun cfg => (cfg, none)⟩ {} "v1").1 =
      NewValidatedSettingsCache := by
  constructor
  · exact (cacheAware_probe_writes_cache_iff_success (fun _ => none)
      NewValidatedSettingsCache ⟨"u", "ns", 3, "sec", none, fun cfg => (cfg, none)⟩
      {} "v1" (by decide)).1 ⟨by decide, Or.inl (by decide)⟩
  · exact (cacheAware_probe_writes_cache_iff_success (fun _ => some "dial failed")
      NewValidatedSettingsCache ⟨"u", "ns", 3, "sec", none, fun cfg => (cfg, none)⟩
      {} "v1" (by decide)).2 (by decide)

/-- Claim C6: fatal short-circuit in `ValidateGenericLDAP`. When the
bind-secret condition or the TLS condition is not true, the returned
gradated conditions are exactly `[BindSecretValid, TLSConfigurationValid]`
(both fatal), the cache is returned unchanged, and the result is
independent of the dial oracle and of the search-base detection capability
— no connection probe and no search-base resolution happen. -/
theorem validateGenericLDAP_fatal_short_circuit
    (secretLookup : SecretLookup)
    (decodeBase64 : String → Except String Bytes)
    (appendCertsFromPEM : Bytes → Bool)
    (testConn testConn' : Provider → Option String)
    (d d' : ProviderConfig → ProviderConfig × Option Condition)
    (upstream : UpstreamGenericLDAPIDP)
    (cache : ValidatedSettingsCache)
    (config : ProviderConfig)
    (h : ¬ ((ValidateSecret secretLookup upstream.bindSecretName upstream.nspace config).2.1.status =
          ConditionStatus.ConditionTrue ∧
        (ValidateTLSConfig decodeBase64 appendCertsFromPEM upstream.tlsSpec
          (ValidateSecret secretLookup upstream.bindSecretName upstream.nspace config).1).2.status =
          ConditionStatus.ConditionTrue)) :
    ValidateGenericLDAP secretLookup decodeBase64 appendCertsFromPEM testConn
        { upstream with detectAndSetSearchBase := d } cache config =
      (cache,
       (ValidateTLSConfig decodeBase64 appendCertsFromPEM upstream.tlsSpec
         (ValidateSecret secretLookup upstream.bindSecretName upstream.nspace config).1).1,
       ⟨[⟨(ValidateSecret secretLookup upstream.bindSecretName upstream.nspace config).2.1, true⟩,
         ⟨(ValidateTLSConfig decodeBase64 appendCertsFromPEM upstream.tlsSpec
             (ValidateSecret secretLookup upstream.bindSecretName upstream.nspace config).1).2,
           true⟩]⟩) ∧
    ValidateGenericLDAP secretLookup decodeBase64 appendCertsFromPEM testConn'
        { upstream with detectAndSetSearchBase := d' } cache config =
      ValidateGenericLDAP secretLookup decodeBase64 appendCertsFromPEM testConn
        { upstream with detectAndSetSearchBase := d } cache config := by
  have main : ∀ (t : Provider → Option String)
      (dd : ProviderConfig → ProviderConfig × Option Condition),
      ValidateGenericLDAP secretLookup decodeBase64 appendCertsFromPEM t
          { upstream with detectAndSetSearchBase := dd } cache config =
        (cache,
         (ValidateTLSConfig decodeBase64 appendCertsFromPEM upstream.tlsSpec
           (ValidateSecret secretLookup upstream.bindSecretName upstream.nspace config).1).1,
         ⟨[⟨(ValidateSecret secretLookup upstream.bindSecretName upstream.nspace config).2.1, true⟩,
           ⟨(ValidateTLSConfig decodeBase64 appendCertsFromPEM upstream.tlsSpec
               (ValidateSecret secretLookup upstream.bindSecretName upstream.nspace config).1).2,
             true⟩]⟩) := by
    intro t dd
    simp only [ValidateGenericLDAP]
    rw [if_neg h]
    rfl
  exact ⟨main testConn d, (main testConn' d').trans (main testConn d).symm⟩

/-- Witness for claim C6: a missing bind secret short-circuits, and the
result is the same under different dial and detection oracles. -/
theorem validateGenericLDAP_fatal_short_circuit_witness :
    ValidateGenericLDAP (fun _ _ => Except.error "secret not found")
        (fun _ => Except.error "bad base64") (fun _ => false) (fun _ => none)
        { (⟨"u", "ns", 3, "sec", none, fun cfg => (cfg, none)⟩ : UpstreamGenericLDAPIDP) with
            detectAndSetSearchBase := fun cfg => (cfg, none) }
        NewValidatedSettingsCache {} =
      (NewValidatedSettingsCache, ({} : ProviderConfig),
       ⟨[⟨{ type := typeBindSecretValid, status := ConditionStatus.ConditionFalse,
            reason := ReasonNotFound, message := "secret not found" }, true⟩,
         ⟨{ type := typeTLSConfigurationValid, status := ConditionStatus.ConditionTrue,
            reason := ReasonSuccess, message := noTLSConfigurationMessage }, true⟩]⟩) ∧
    ValidateGenericLDAP (fun _ _ => Except.error "secret not found")
        (fun _ => Except.error "bad base64") (fun _ => false) (fun _ => some "dial failed")
        { (⟨"u", "ns", 3, "sec", none, fun cfg => (cfg, none)⟩ : UpstreamGenericLDAPIDP) with
            detectAndSetSearchBase := fun cfg =>
              (cfg, some { type := "SearchBaseFound", status := ConditionStatus.ConditionFalse,
                           reason := "r", message := "m" }) }
        NewValidatedSettingsCache {} =
      ValidateGenericLDAP (fun _ _ => Except.error "secret not found")
        (fun _ => Except.error "bad base64") (fun _ => false) (fun _ => none)
        { (⟨"u", "ns", 3, "sec", none, fun cfg => (cfg, none)⟩ : UpstreamGenericLDAPIDP) with
            detectAndSetSearchBase := fun cfg => (cfg, none) }
        NewValidatedSettingsCache {} := by
  have happ := validateGenericLDAP_fatal_short_circuit
    (fun _ _ => Except.error "secret not found") (fun _ => Except.error "bad base64")
    (fun _ => false) (fun _ => none) (fun _ => some "dial failed")
    (fun cfg => (cfg, none))
    (fun cfg =>
      (cfg, some { type := "SearchBaseFound", status := ConditionStatus.ConditionFalse,
                   reason := "r", message := "m" }))
    ⟨"u", "ns", 3, "sec", none, fun cfg => (cfg, none)⟩
    NewValidatedSettingsCache {} (by decide)
  exact ⟨happ.1.trans (by rfl), happ.2⟩

/-- Every branch of `ValidateSecret` yields a condition of type
`BindSecretValid`. -/
theorem ValidateSecret_condition_type (secretLookup : SecretLookup)
    (n ns : String) (config : ProviderConfig) :
    ((ValidateSecret secretLookup n ns config).2.1).type = typeBindSecretValid := by
  simp only [ValidateSecret]
  split
  · rfl
  · split
    · rfl
    · split
      · rfl
      · rfl

/-- Every branch of `ValidateTLSConfig` yields a condition of type
`TLSConfigurationValid`. -/
theorem ValidateTLSConfig_condition_type
    (decodeBase64 : String → Except String Bytes)
    (appendCertsFromPEM : Bytes → Bool)
    (tlsSpec : Option TLSSpec) (config : ProviderConfig) :
    ((ValidateTLSConfig decodeBase64 appendCertsFromPEM tlsSpec config).2).type =
      typeTLSConfigurationValid := by
  cases tlsSpec with
  | none => rfl
  | some s =>
    simp only [ValidateTLSConfig]
    split
    · rfl
    · split
      · rfl
      · split
        · rfl
        · rfl

/-- Every branch of `TestConnection` yields a condition of type
`LDAPConnectionValid`. -/
theorem TestConnection_condition_type (testConn : Provider → Option String)
    (b : String) (config : ProviderConfig) (v : String) :
    ((TestConnection testConn b config v).2).type = typeLDAPConnectionValid := by
  simp only [TestConnection]
  split
  · rfl
  · split
    · rfl
    · rfl

/-- Under the collaborator contracts (the detection capability returns
`SearchBaseFound`-typed conditions; cache entries under this upstream's
name carry a present connection condition of type `LDAPConnectionValid`
and, when present, a search-base condition of type `SearchBaseFound`),
the cache-aware connectivity step returns a present connection condition
of type `LDAPConnectionValid` and a search-base condition that is of type
`SearchBaseFound` whenever present. -/
theorem validateAndSet_condition_types
    (testConn : Provider → Option String) (cache : ValidatedSettingsCache)
    (upstream : UpstreamGenericLDAPIDP) (config : ProviderConfig) (sv : String)
    (hdetect : ∀ cfg c, (upstream.detectAndSetSearchBase cfg).2 = some c →
      c.type = TypeSearchBaseFound)
    (hcacheConn : ∀ vs, cache upstream.name = some vs →
      ∃ c, vs.ConnectionValidCondition = some c ∧ c.type = typeLDAPConnectionValid)
    (hcacheSb : ∀ vs c, cache upstream.name = some vs →
      vs.SearchBaseFoundCondition = some c → c.type = TypeSearchBaseFound) :
    (∃ c, (validateAndSetLDAPServerConnectivityAndSearchBase testConn cache upstream config
        sv).2.2.1 = some c ∧ c.type = typeLDAPConnectionValid) ∧
    (∀ c, (validateAndSetLDAPServerConnectivityAndSearchBase testConn cache upstream config
        sv).2.2.2 = some c → c.type = TypeSearchBaseFound) := by
  simp only [validateAndSetLDAPServerConnectivityAndSearchBase]
  split
  next hhit =>
    obtain ⟨h1, _, _⟩ := hhit
    have hGet : cache.Get upstream.name sv upstream.generation =
        ((cache.Get upstream.name sv upstream.generation).1, true) := by
      rw [← h1]
    obtain ⟨hlook, -, -⟩ := ValidatedSettingsCache.Get_eq_some_true _ _ _ _ _ hGet
    constructor
    · obtain ⟨c, hc, hct⟩ := hcacheConn _ hlook
      refine ⟨c, ?_, hct⟩
      show ((cache.Get upstream.name sv upstream.generation).1.ConnectionValidCondition).map
        Condition.DeepCopy = some c
      rw [map_deepCopy]
      exact hc
    · intro c hc
      have hc' : ((cache.Get upstream.name sv
          upstream.generation).1.SearchBaseFoundCondition).map Condition.DeepCopy = some c := hc
      rw [map_deepCopy] at hc'
      exact hcacheSb _ _ hlook hc'
  next hmiss =>
    constructor
    · exact ⟨(TestConnection testConn upstream.bindSecretName config sv).2, rfl,
        TestConnection_condition_type _ _ _ _⟩
    · intro c hc
      have hc' : (upstream.detectAndSetSearchBase
          (TestConnection testConn upstream.bindSecretName config sv).1).2 = some c := hc
      exact hdetect _ _ hc'

/-- When both the bind-secret and TLS conditions are true,
`ValidateGenericLDAP`'s condition list is the two fatal validator
conditions extended by the cache-aware step's connection condition
(non-fatal) and, when present, its search-base condition (fatal). -/
theorem validateGenericLDAP_bothTrue_conditions
    (secretLookup : SecretLookup)
    (decodeBase64 : String → Except String Bytes)
    (appendCertsFromPEM : Bytes → Bool)
    (testConn : Provider → Option String)
    (upstream : UpstreamGenericLDAPIDP)
    (cache : ValidatedSettingsCache)
    (config : ProviderConfig)
    (h : (ValidateSecret secretLookup upstream.bindSecretName upstream.nspace config).2.1.status =
          ConditionStatus.ConditionTrue ∧
        (ValidateTLSConfig decodeBase64 appendCertsFromPEM upstream.tlsSpec
          (ValidateSecret secretLookup upstream.bindSecretName upstream.nspace config).1).2.status =
          ConditionStatus.ConditionTrue) :
    (ValidateGenericLDAP secretLookup decodeBase64 appendCertsFromPEM testConn upstream
        cache config).2.2 =
      match (validateAndSetLDAPServerConnectivityAndSearchBase testConn cache upstream
          (ValidateTLSConfig decodeBase64 appendCertsFromPEM upstream.tlsSpec
            (ValidateSecret secretLookup upstream.bindSecretName upstream.nspace config).1).1
          (ValidateSecret secretLookup upstream.bindSecretName upstream.nspace
            config).2.2).2.2.2 with
      | some c2 =>
        (match (validateAndSetLDAPServerConnectivityAndSearchBase testConn cache upstream
            (ValidateTLSConfig decodeBase64 appendCertsFromPEM upstream.tlsSpec
              (ValidateSecret secretLookup upstream.bindSecretName upstream.nspace config).1).1
            (ValidateSecret secretLookup upstream.bindSecretName upstream.nspace
              config).2.2).2.2.1 with
        | some c =>
          ((({} : GradatedConditions).Append
              (ValidateSecret secretLookup upstream.bindSecretName upstream.nspace
                config).2.1 true).Append
              (ValidateTLSConfig decodeBase64 appendCertsFromPEM upstream.tlsSpec
                (ValidateSecret secretLookup upstream.bindSecretName upstream.nspace
                  config).1).2 true).Append c false
        | none =>
          (({} : GradatedConditions).Append
              (ValidateSecret secretLookup upstream.bindSecretName upstream.nspace
                config).2.1 true).Append
              (ValidateTLSConfig decodeBase64 appendCertsFromPEM upstream.tlsSpec
                (ValidateSecret secretLookup upstream.bindSecretName upstream.nspace
                  config).1).2 true).Append c2 true
      | none =>
        match (validateAndSetLDAPServerConnectivityAndSearchBase testConn cache upstream
            (ValidateTLSConfig decodeBase64 appendCertsFromPEM upstream.tlsSpec
              (ValidateSecret secretLookup upstream.bindSecretName upstream.nspace config).1).1
            (ValidateSecret secretLookup upstream.bindSecretName upstream.nspace
              config).2.2).2.2.1 with
        | some c =>
          ((({} : GradatedConditions).Append
              (ValidateSecret secretLookup upstream.bindSecretName upstream.nspace
                config).2.1 true).Append
              (ValidateTLSConfig decodeBase64 appendCertsFromPEM upstream.tlsSpec
                (ValidateSecret secretLookup upstream.bindSecretName upstream.nspace
                  config).1).2 true).Append c false
        | none =>
          (({} : GradatedConditions).Append
              (ValidateSecret secretLookup upstream.bindSecretName upstream.nspace
                config).2.1 true).Append
              (ValidateTLSConfig decodeBase64 appendCertsFromPEM upstream.tlsSpec
                (ValidateSecret secretLookup upstream.bindSecretName upstream.nspace
                  config).1).2 true := by
  simp only [ValidateGenericLDAP]
  rw [if_pos h]

/-- Claim C8: `ValidateGenericLDAP` returns its gradated conditions in
exactly the order `BindSecretValid`, `TLSConfigurationValid`, then — only
when both of those are true — `LDAPConnectionValid` and, exactly when the
cache-aware step's search-base condition is non-nil, `SearchBaseFound`;
the two validator conditions and the search-base condition are appended
fatal and the connection condition non-fatal. Both arms are tied to the
search-base condition: a nil search-base condition yields the three-element
list and a non-nil one yields the four-element list ending in
`SearchBaseFound`. The hypotheses are the collaborator contracts: the
detection capability produces `SearchBaseFound`-typed conditions, and
cache entries under this upstream's name carry a present
`LDAPConnectionValid`-typed connection condition and (when present) a
`SearchBaseFound`-typed search-base condition. -/
theorem validateGenericLDAP_condition_order
    (secretLookup : SecretLookup)
    (decodeBase64 : String → Except String Bytes)
    (appendCertsFromPEM : Bytes → Bool)
    (testConn : Provider → Option String)
    (upstream : UpstreamGenericLDAPIDP)
    (cache : ValidatedSettingsCache)
    (config : ProviderConfig)
    (hdetect : ∀ cfg c, (upstream.detectAndSetSearchBase cfg).2 = some c →
      c.type = TypeSearchBaseFound)
    (hcacheConn : ∀ vs, cache upstream.name = some vs →
      ∃ c, vs.ConnectionValidCondition = some c ∧ c.type = typeLDAPConnectionValid)
    (hcacheSb : ∀ vs c, cache upstream.name = some vs →
      vs.SearchBaseFoundCondition = some c → c.type = TypeSearchBaseFound) :
    (¬ ((ValidateSecret secretLookup upstream.bindSecretName upstream.nspace config).2.1.status =
          ConditionStatus.ConditionTrue ∧
        (ValidateTLSConfig decodeBase64 appendCertsFromPEM upstream.tlsSpec
          (ValidateSecret secretLookup upstream.bindSecretName upstream.nspace config).1).2.status =
          ConditionStatus.ConditionTrue) →
      ((ValidateGenericLDAP secretLookup decodeBase64 appendCertsFromPEM testConn upstream
          cache config).2.2.gradatedConditions.map fun gc => (gc.condition.type, gc.isFatal)) =
        [(typeBindSecretValid, true), (typeTLSConfigurationValid, true)]) ∧
    (((ValidateSecret secretLookup upstream.bindSecretName upstream.nspace config).2.1.status =
          ConditionStatus.ConditionTrue ∧
        (ValidateTLSConfig decodeBase64 appendCertsFromPEM upstream.tlsSpec
          (ValidateSecret secretLookup upstream.bindSecretName upstream.nspace config).1).2.status =
          ConditionStatus.ConditionTrue) →
      (((validateAndSetLDAPServerConnectivityAndSearchBase testConn cache upstream
          (ValidateTLSConfig decodeBase64 appendCertsFromPEM upstream.tlsSpec
            (ValidateSecret secretLookup upstream.bindSecretName upstream.nspace config).1).1
          (ValidateSecret secretLookup upstream.bindSecretName upstream.nspace
            config).2.2).2.2.2 = none →
        ((ValidateGenericLDAP secretLookup decodeBase64 appendCertsFromPEM testConn upstream
            cache config).2.2.gradatedConditions.map fun gc => (gc.condition.type, gc.isFatal)) =
          [(typeBindSecretValid, true), (typeTLSConfigurationValid, true),
           (typeLDAPConnectionValid, false)]) ∧
      (∀ c2, (validateAndSetLDAPServerConnectivityAndSearchBase testConn cache upstream
          (ValidateTLSConfig decodeBase64 appendCertsFromPEM upstream.tlsSpec
            (ValidateSecret secretLookup upstream.bindSecretName upstream.nspace config).1).1
          (ValidateSecret secretLookup upstream.bindSecretName upstream.nspace
            config).2.2).2.2.2 = some c2 →
        ((ValidateGenericLDAP secretLookup decodeBase64 appendCertsFromPEM testConn upstream
            cache config).2.2.gradatedConditions.map fun gc => (gc.condition.type, gc.isFatal)) =
          [(typeBindSecretValid, true), (typeTLSConfigurationValid, true),
           (typeLDAPConnectionValid, false), (TypeSearchBaseFound, true)]))) := by
  constructor
  · intro hnot
    simp only [ValidateGenericLDAP]
    rw [if_neg hnot]
    simp [GradatedConditions.Append, ValidateSecret_condition_type,
      ValidateTLSConfig_condition_type]
  · intro hboth
    obtain ⟨⟨c, hc, hct⟩, hsb⟩ := validateAndSet_condition_types testConn cache upstream
      (ValidateTLSConfig decodeBase64 appendCertsFromPEM upstream.tlsSpec
        (ValidateSecret secretLookup upstream.bindSecretName upstream.nspace config).1).1
      (ValidateSecret secretLookup upstream.bindSecretName upstream.nspace config).2.2
      hdetect hcacheConn hcacheSb
    constructor
    · intro hsbv
      rw [validateGenericLDAP_bothTrue_conditions secretLookup decodeBase64 appendCertsFromPEM
        testConn upstream cache config hboth]
      rw [hsbv, hc]
      simp [GradatedConditions.Append, ValidateSecret_condition_type,
        ValidateTLSConfig_condition_type, hct]
    · intro c2 hsbv
      have hc2 := hsb c2 hsbv
      rw [validateGenericLDAP_bothTrue_conditions secretLookup decodeBase64 appendCertsFromPEM
        testConn upstream cache config hboth]
      rw [hsbv, hc]
      simp [GradatedConditions.Append, ValidateSecret_condition_type,
        ValidateTLSConfig_condition_type, hct, hc2]

/-- Witness for claim C8: with a valid bind secret, no TLS spec and a
successful dial, a detection capability returning no condition yields
exactly BindSecretValid, TLSConfigurationValid, LDAPConnectionValid with
fatal flags (true, true, false), and one returning a SearchBaseFound
condition yields those three followed by SearchBaseFound with fatal flag
true. -/
theorem validateGenericLDAP_condition_order_witness :
    ((ValidateGenericLDAP
        (fun _ _ => Except.ok
          ⟨corev1.SecretTypeBasicAuth, "v1",
           fun k => if k = "username" then "admin" else
             if k = "password" then "pw" else ""⟩)
        (fun _ => Except.error "bad") (fun _ => false) (fun _ => none)
        ⟨"u", "ns", 3, "sec", none, fun cfg => (cfg, none)⟩
        NewValidatedSettingsCache {}).2.2.gradatedConditions.map
      fun gc => (gc.condition.type, gc.isFatal)) =
      [(typeBindSecretValid, true), (typeTLSConfigurationValid, true),
       (typeLDAPConnectionValid, false)] ∧
    ((ValidateGenericLDAP
        (fun _ _ => Except.ok
          ⟨corev1.SecretTypeBasicAuth, "v1",
           fun k => if k = "username" then "admin" else
             if k = "password" then "pw" else ""⟩)
        (fun _ => Except.error "bad") (fun _ => false) (fun _ => none)
        ⟨"u", "ns", 3, "sec", none, fun cfg =>
          (cfg, some { type := "SearchBaseFound", status := ConditionStatus.ConditionTrue,
                       reason := "Success", message := "found" })⟩
        NewValidatedSettingsCache {}).2.2.gradatedConditions.map
      fun gc => (gc.condition.type, gc.isFatal)) =
      [(typeBindSecretValid, true), (typeTLSConfigurationValid, true),
       (typeLDAPConnectionValid, false), (TypeSearchBaseFound, true)] := by
  constructor
  · exact ((validateGenericLDAP_condition_order
      (fun _ _ => Except.ok
        ⟨corev1.SecretTypeBasicAuth, "v1",
         fun k => if k = "username" then "admin" else
           if k = "password" then "pw" else ""⟩)
      (fun _ => Except.error "bad") (fun _ => false) (fun _ => none)
      ⟨"u", "ns", 3, "sec", none, fun cfg => (cfg, none)⟩
      NewValidatedSettingsCache {}
      (fun cfg c h => Option.noConfusion h)
      (fun vs h => Option.noConfusion h)
      (fun vs c h _ => Option.noConfusion h)).2 (by decide)).1 (by decide)
  · exact ((validateGenericLDAP_condition_order
      (fun _ _ => Except.ok
        ⟨corev1.SecretTypeBasicAuth, "v1",
         fun k => if k = "username" then "admin" else
           if k = "password" then "pw" else ""⟩)
      (fun _ => Except.error "bad") (fun _ => false) (fun _ => none)
      ⟨"u", "ns", 3, "sec", none, fun cfg =>
        (cfg, some { type := "SearchBaseFound", status := ConditionStatus.ConditionTrue,
                     reason := "Success", message := "found" })⟩
      NewValidatedSettingsCache {}
      (fun cfg c h => by cases Option.some.inj h; rfl)
      (fun vs h => Option.noConfusion h)
      (fun vs c h _ => Option.noConfusion h)).2 (by decide)).2
      { type := "SearchBaseFound", status := ConditionStatus.ConditionTrue,
        reason := "Success", message := "found" } (by decide)

end upstreamwatchers
